import Mathlib

/-!
Verification development for the PD store-limiter fragment and the
region-label rule subsystem.

Part 1 models the adaptive per-store admission controller (Store Limiter,
Scene registry, load-sample aggregator).  Its Go implementation is not part
of the available sources (only its regression tests are), so the definitions
are modelled from the specification; each such definition says so in its
doc comment.

Part 2 embeds the region-label rule code (`server/schedule/labeler/labeler.go`
and the HTTP handler `server/api/region_label.go`), which is available in
full, translated function by function.
-/

namespace PD

/-! ### Part 1: Store limiter (modelled from the spec) -/

/-- Modelled from the spec: the set of scheduling actions that mutate a
store's replica set; known variants are AddPeer and RemovePeer. -/
inductive OperationKind where
  | AddPeer
  | RemovePeer
deriving DecidableEq

/-- Modelled from the spec: discrete classification of a store's current
contention, ordered by increasing load. -/
inductive LoadLevel where
  | Idle
  | Low
  | Normal
  | High
deriving DecidableEq

/-- Modelled from the spec: a Scene is a table of four concurrency ceilings,
one per load level, for one operation kind. -/
structure Scene where
  Idle : Nat
  Low : Nat
  Normal : Nat
  High : Nat
deriving DecidableEq

/-- The ceiling a Scene assigns to a given load level. -/
def Scene.ceiling (s : Scene) : LoadLevel → Nat
  | LoadLevel.Idle => s.Idle
  | LoadLevel.Low => s.Low
  | LoadLevel.Normal => s.Normal
  | LoadLevel.High => s.High

/-- Modelled from the spec: `DefaultScene(kind)` is a built-in, kind-specific
factory default (a pure function).  The spec does not fix the numeric values;
this table is one fixed choice, non-increasing from Idle to High as the spec
recommends, and used uniformly for both known kinds. -/
def DefaultScene (_ : OperationKind) : Scene :=
  { Idle := 100, Low := 50, Normal := 32, High := 12 }

/-- Modelled from the spec: one `StoreStats` heartbeat sample, containing the
store identifier and load indicators.  Only the store identifier is consulted
by the state transitions modelled here; the indicator fields are carried so
that the load-level mapping policy can read them. -/
structure StoreStats where
  storeID : Nat
  capacity : Nat
  available : Nat
  busy : Bool
  snapshotCount : Nat
deriving DecidableEq

/-- Modelled from the spec: the Store Limiter owns the Scene registry
(per operation kind), the per-store last derived load level (`none` until a
first sample arrives), the per-store sample counter `total`, and the
per-(store, kind) in-flight counters.  The in-flight counters are carried as
integers so that the no-negative-counter policy is a real statement rather
than an artifact of the carrier type. -/
structure StoreLimiter where
  scene : OperationKind → Scene
  level : Nat → Option LoadLevel
  total : Nat → Nat
  inflight : Nat → OperationKind → Int

/-- Modelled from the spec: a freshly constructed limiter seeds the Scene
registry with `DefaultScene` per kind, knows no store, and has all counters
at zero. -/
def NewStoreLimiter : StoreLimiter where
  scene := fun k => DefaultScene k
  level := fun _ => none
  total := fun _ => 0
  inflight := fun _ _ => 0

/-- Modelled from the spec: `CurrentLevel(storeID)` is a pure read of the last
computed level, returning the conservative default High when no sample has
ever been collected for the store. -/
def CurrentLevel (s : StoreLimiter) (store : Nat) : LoadLevel :=
  (s.level store).getD LoadLevel.High

/-- The ceiling consulted by an admission check: the active Scene for the kind,
indexed by the store's current load level. -/
def ceilingFor (s : StoreLimiter) (store : Nat) (k : OperationKind) : Nat :=
  (s.scene k).ceiling (CurrentLevel s store)

/-- Modelled from the spec: `TryAcquire(storeID, kind)` computes the ceiling
from the active Scene and the store's current level; if the in-flight counter
is strictly below the ceiling it increments the counter and grants, otherwise
it denies and leaves the state unchanged. -/
def TryAcquire (s : StoreLimiter) (store : Nat) (k : OperationKind) :
    Bool × StoreLimiter :=
  if s.inflight store k < (ceilingFor s store k : Int) then
    (true, { s with inflight := fun st k2 =>
        if st = store ∧ k2 = k then s.inflight store k + 1 else s.inflight st k2 })
  else
    (false, s)

/-- Modelled from the spec: `Release` decrements the in-flight counter for the
(store, kind) pair, clamping at zero so that a redundant release is a no-op
and the counter never goes negative. -/
def Release (s : StoreLimiter) (store : Nat) (k : OperationKind) : StoreLimiter :=
  { s with inflight := fun st k2 =>
      if st = store ∧ k2 = k then max (s.inflight store k - 1) 0
      else s.inflight st k2 }

/-- Modelled from the spec: `Collect(stats)` ingests one heartbeat sample for
the store identified in `stats`: it increments that store's total sample
counter and recomputes the store's load level by the pluggable mapping policy
`classify` (the spec leaves the numeric breakpoints as configuration, so the
policy is a parameter). -/
def Collect (classify : StoreStats → LoadLevel) (s : StoreLimiter)
    (stats : StoreStats) : StoreLimiter :=
  { s with
    total := fun st => if st = stats.storeID then s.total st + 1 else s.total st
    level := fun st => if st = stats.storeID then some (classify stats) else s.level st }

/-- Modelled from the spec: `ReplaceStoreLimitScene(scene, kind)` installs
`scene` as the active Scene for `kind` wholesale, discarding the previous
value entirely, and touches nothing else. -/
def ReplaceStoreLimitScene (s : StoreLimiter) (sc : Scene) (k : OperationKind) :
    StoreLimiter :=
  { s with scene := fun k2 => if k2 = k then sc else s.scene k2 }

/-- Iterated admission attempts for one (store, kind) pair: the resulting
state and the list of grant decisions in call order. -/
def acquireN (store : Nat) (k : OperationKind) : Nat → StoreLimiter →
    StoreLimiter × List Bool
  | 0, s => (s, [])
  | n + 1, s =>
      let p := acquireN store k n s
      let q := TryAcquire p.1 store k
      (q.2, p.2 ++ [q.1])

/-- One step of the admission interface on a fixed (store, kind) pair. -/
inductive LimOp where
  | acq
  | rel

/-- Applies a sequence of TryAcquire/Release calls on one (store, kind) pair. -/
def applyOps (store : Nat) (k : OperationKind) : List LimOp → StoreLimiter →
    StoreLimiter
  | [], s => s
  | op :: rest, s =>
      match op with
      | LimOp.acq => applyOps store k rest (TryAcquire s store k).2
      | LimOp.rel => applyOps store k rest (Release s store k)

/-- Collects a stream of heartbeat samples in order. -/
def collectAll (classify : StoreStats → LoadLevel) (l : List StoreStats)
    (s : StoreLimiter) : StoreLimiter :=
  match l with
  | [] => s
  | a :: rest => collectAll classify rest (Collect classify s a)

/-! ### Part 2: Region-label rule subsystem (embedded from the source) -/

/-- The rule-type tag checked by the switch in `adjustRule`
(`labeler.go`); its concrete string value plays no role in the proofs. -/
def KeyRange : String := "key-range"

/-- Embedded from `labeler.go`: the `KeyRangeRule` struct holding the hex
forms and decoded byte forms of the range bounds.  Bytes are carried as
natural numbers below 256 produced by the hex decoder. -/
structure KeyRangeRule where
  StartKeyHex : String
  EndKeyHex : String
  StartKey : List Nat
  EndKey : List Nat
deriving DecidableEq

/-- The dynamic value held in a `LabelRule`'s `Rule` field (an `interface\x7b\x7d`
in Go): after JSON decoding it is either a string-to-string map, an already
adjusted `KeyRangeRule`, or some other shape on which the type assertion in
`adjustRule` fails. -/
inductive RuleData where
  | strMap (data : List (String × String))
  | keyRange (r : KeyRangeRule)
  | other
deriving DecidableEq

/-- Embedded from `labeler.go`: one key/value label attached by a rule. -/
structure RegionLabel where
  Key : String
  Value : String
deriving DecidableEq

/-- Embedded from `labeler.go`: a region label rule. -/
structure LabelRule where
  ID : String
  Labels : List RegionLabel
  RuleType : String
  Rule : RuleData
deriving DecidableEq

/-- The errors produced by the labeler paths under study:
`errs.ErrRegionRuleContent`, `errs.ErrHexDecodingString`, and errors
propagated from the storage backend. -/
inductive LabelerError where
  | regionRuleContent (msg : String)
  | hexDecodingString (arg : String)
  | storage (msg : String)
deriving DecidableEq

/-- Value of one hex digit, as in Go's `encoding/hex`. -/
def hexDigitVal (c : Char) : Option Nat :=
  if '0' ≤ c ∧ c ≤ '9' then some (c.toNat - 48)
  else if 'a' ≤ c ∧ c ≤ 'f' then some (c.toNat - 97 + 10)
  else if 'A' ≤ c ∧ c ≤ 'F' then some (c.toNat - 65 + 10)
  else none

/-- Go's `hex.DecodeString` on a character list: consumes the input two hex
digits at a time; fails on an odd-length input or a non-hex character. -/
def hexDecode : List Char → Option (List Nat)
  | [] => some []
  | [_] => none
  | a :: b :: rest =>
      match hexDigitVal a, hexDigitVal b, hexDecode rest with
      | some x, some y, some bs => some ((x * 16 + y) :: bs)
      | _, _, _ => none

/-- Go's `hex.DecodeString` on a string. -/
def hexDecodeString (s : String) : Option (List Nat) :=
  hexDecode s.data

/-- Go's `bytes.Compare`: lexicographic three-way comparison. -/
def bytesCompare : List Nat → List Nat → Int
  | [], [] => 0
  | [], _ :: _ => -1
  | _ :: _, [] => 1
  | a :: as, b :: bs =>
      if a < b then -1 else if b < a then 1 else bytesCompare as bs

/-- Go map indexing `data[key]` on a string map, yielding the empty string
for an absent key. -/
def lookupStr (data : List (String × String)) (key : String) : String :=
  match data with
  | [] => ""
  | p :: rest => if p.1 = key then p.2 else lookupStr rest key

/-- Embedded from `labeler.go` lines 76-100: `adjustRule`.  The `KeyRange`
case of the switch validates and decodes the bounds and assigns the decoded
`KeyRangeRule` into the rule, but the function then falls out of the switch
to the unconditional final statement, which returns the error
`ErrRegionRuleContent("invalid rule type: <RuleType>")`; there is no
`return nil` on the success path.  (The in-place mutation of the argument on
that path is invisible to callers, which all stop at the returned error.) -/
def adjustRule (rule : LabelRule) : Except LabelerError LabelRule :=
  if rule.RuleType = KeyRange then
    match rule.Rule with
    | RuleData.strMap data =>
        let startHex := lookupStr data "start_key"
        let endHex := lookupStr data "end_key"
        match hexDecodeString startHex with
        | none => Except.error (LabelerError.hexDecodingString startHex)
        | some startKey =>
            match hexDecodeString endHex with
            | none => Except.error (LabelerError.hexDecodingString endHex)
            | some endKey =>
                if 0 < endKey.length ∧ bytesCompare endKey startKey ≤ 0 then
                  Except.error (LabelerError.regionRuleContent
                    "endKey should be greater than startKey")
                else
                  Except.error (LabelerError.regionRuleContent
                    ("invalid rule type: " ++ rule.RuleType))
    | _ => Except.error (LabelerError.regionRuleContent "invalid rule type")
  else
    Except.error (LabelerError.regionRuleContent
      ("invalid rule type: " ++ rule.RuleType))

/-- The in-memory `labelRules` map, as an association list keyed by rule ID. -/
def RuleMap : Type := List (String × LabelRule)

/-- Lookup in the `labelRules` map. -/
def mapLookup (m : RuleMap) (key : String) : Option LabelRule :=
  match m with
  | [] => none
  | p :: rest => if p.1 = key then some p.2 else mapLookup rest key

/-- Insertion/update in the `labelRules` map (`l.labelRules[id] = rule`). -/
def mapInsert (m : RuleMap) (key : String) (v : LabelRule) : RuleMap :=
  match m with
  | [] => [(key, v)]
  | p :: rest => if p.1 = key then (key, v) :: rest else p :: mapInsert rest key v

/-- Deletion from the `labelRules` map (`delete(l.labelRules, id)`). -/
def mapErase (m : RuleMap) (key : String) : RuleMap :=
  match m with
  | [] => []
  | p :: rest => if p.1 = key then mapErase rest key else p :: mapErase rest key

/-- The storage backend as seen by the labeler: each call either succeeds
(`none`) or reports an error message (`some msg`). -/
structure StorageModel where
  saveRegionRule : String → LabelRule → Option String
  deleteRegionRule : String → Option String

/-- Embedded from `labeler.go` lines 121-132: `SetLabelRule` first adjusts
the rule, then persists it, and only then installs it into the in-memory
map; an error from either step returns early with the map untouched. -/
def SetLabelRule (storage : StorageModel) (m : RuleMap) (rule : LabelRule) :
    Except LabelerError Unit × RuleMap :=
  match adjustRule rule with
  | Except.error e => (Except.error e, m)
  | Except.ok rule2 =>
      match storage.saveRegionRule rule2.ID rule2 with
      | some e => (Except.error (LabelerError.storage e), m)
      | none => (Except.ok (), mapInsert m rule2.ID rule2)

/-- Embedded from `labeler.go` lines 135-143: `DeleteLabelRule` deletes from
storage first and removes the in-memory entry only on success. -/
def DeleteLabelRule (storage : StorageModel) (m : RuleMap) (id : String) :
    Except LabelerError Unit × RuleMap :=
  match storage.deleteRegionRule id with
  | some e => (Except.error (LabelerError.storage e), m)
  | none => (Except.ok (), mapErase m id)

/-- Embedded from `labeler.go` lines 49-74, the scan phase of `loadRules`:
each persisted (key, value) pair is JSON-unmarshalled (modelled by the
`unmarshal` parameter) and adjusted; a pair failing either step is queued
for deletion, a pair passing both is installed into the map.  Returns the
resulting map and the deletion queue in order. -/
def loadRulesScan (unmarshal : String → Option LabelRule) :
    List (String × String) → RuleMap → RuleMap × List String
  | [], m => (m, [])
  | kv :: rest, m =>
      match unmarshal kv.2 with
      | none =>
          let r := loadRulesScan unmarshal rest m
          (r.1, kv.1 :: r.2)
      | some rule =>
          match adjustRule rule with
          | Except.error _ =>
              let r := loadRulesScan unmarshal rest m
              (r.1, kv.1 :: r.2)
          | Except.ok rule2 =>
              loadRulesScan unmarshal rest (mapInsert m rule2.ID rule2)

/-- One HTTP response written by a handler: a JSON render with a status code
and body, or the response written by `ReadJSONRespondError` when the request
body fails to decode. -/
inductive Response where
  | json (status : Nat) (body : String)
  | decodeFailure
deriving DecidableEq

/-- Embedded from `region_label.go` lines 85-90: the status chosen for a
`SetLabelRule` error — 400 when `ErrRegionRuleContent` or
`ErrHexDecodingString` matches, 500 otherwise. -/
def errStatus : LabelerError → Nat
  | LabelerError.regionRuleContent _ => 400
  | LabelerError.hexDecodingString _ => 400
  | LabelerError.storage _ => 500

/-- The `err.Error()` text rendered into the response body; the surrounding
formatting added by the error framework is abstracted away. -/
def errMessage : LabelerError → String
  | LabelerError.regionRuleContent msg => msg
  | LabelerError.hexDecodingString arg => arg
  | LabelerError.storage msg => msg

/-- The success body written by `SetRule`. -/
def SetRuleSuccessMessage : String := "Update region label rule successfully."

/-- Embedded from `region_label.go` lines 78-92: the `SetRule` handler.
If the body fails to decode, `ReadJSONRespondError` writes an error response
and the handler returns.  Otherwise it calls `SetLabelRule`; on error it
writes a 400 or 500 response but does not return, so control falls through
to the unconditional 200 success render.  Returns the list of responses
written, in order, and the resulting rule map. -/
def SetRuleHandler (body : Option LabelRule) (storage : StorageModel)
    (m : RuleMap) : List Response × RuleMap :=
  match body with
  | none => ([Response.decodeFailure], m)
  | some rule =>
      match SetLabelRule storage m rule with
      | (Except.error e, m2) =>
          ([Response.json (errStatus e) (errMessage e),
            Response.json 200 SetRuleSuccessMessage], m2)
      | (Except.ok _, m2) =>
          ([Response.json 200 SetRuleSuccessMessage], m2)

/-! ### Concrete fixtures used to instantiate the theorems -/

/-- The Scene installed by the baseline regression test. -/
def demoScene : Scene := { Idle := 4, Low := 3, Normal := 2, High := 1 }

/-- A sample heartbeat for store 3. -/
def demoStats : StoreStats :=
  { storeID := 3, capacity := 100, available := 40, busy := false,
    snapshotCount := 0 }

/-- A storage backend whose calls all succeed. -/
def okStorage : StorageModel where
  saveRegionRule := fun _ _ => none
  deleteRegionRule := fun _ => none

/-- A storage backend whose calls all fail. -/
def failStorage : StorageModel where
  saveRegionRule := fun _ _ => some "save failed"
  deleteRegionRule := fun _ => some "delete failed"

/-- A sample key-range rule. -/
def demoRule : LabelRule where
  ID := "a"
  Labels := []
  RuleType := KeyRange
  Rule := RuleData.strMap [("start_key", "00"), ("end_key", "01")]

/-- A second sample rule under a different ID. -/
def demoRule2 : LabelRule where
  ID := "b"
  Labels := [{ Key := "zone", Value := "z1" }]
  RuleType := KeyRange
  Rule := RuleData.strMap [("start_key", "02"), ("end_key", "03")]

/-- A sample in-memory rule map holding both sample rules. -/
def demoMap : RuleMap := [("a", demoRule), ("b", demoRule2)]

/-! ### Helper lemmas for the labeler -/

/-- Every control path through `adjustRule` ends in an error return: the
`KeyRange` case either returns one of its validation errors or falls out of
the switch into the unconditional final error, and every other rule type
reaches that final error directly. -/
theorem adjustRule_error (rule : LabelRule) :
    ∃ e, adjustRule rule = Except.error e := by
  unfold adjustRule
  dsimp only
  repeat' split
  all_goals exact ⟨_, rfl⟩

theorem mapErase_lookup_self (m : RuleMap) (key : String) :
    mapLookup (mapErase m key) key = none := by
  induction m with
  | nil => rfl
  | cons p rest ih =>
      by_cases h : p.1 = key
      · simpa [mapErase, h] using ih
      · simpa [mapErase, mapLookup, h] using ih

theorem mapErase_lookup_other (m : RuleMap) (key id2 : String) (h : id2 ≠ key) :
    mapLookup (mapErase m key) id2 = mapLookup m id2 := by
  induction m with
  | nil => rfl
  | cons p rest ih =>
      by_cases hp : p.1 = key
      · have hp2 : ¬p.1 = id2 := by
          rw [hp]; exact fun hh => h hh.symm
        simp only [mapErase, mapLookup, if_pos hp, if_neg hp2]
        exact ih
      · by_cases hq : p.1 = id2
        · simp only [mapErase, mapLookup, if_neg hp, if_pos hq]
        · simp only [mapErase, mapLookup, if_neg hp, if_neg hq]
          exact ih

theorem setLabelRule_fails (storage : StorageModel) (m : RuleMap)
    (rule : LabelRule) :
    ∃ e, SetLabelRule storage m rule = (Except.error e, m) := by
  obtain ⟨e, he⟩ := adjustRule_error rule
  refine ⟨e, ?_⟩
  unfold SetLabelRule
  rw [he]

theorem loadRulesScan_map (unmarshal : String → Option LabelRule)
    (kvs : List (String × String)) (m : RuleMap) :
    (loadRulesScan unmarshal kvs m).1 = m := by
  induction kvs generalizing m with
  | nil => rfl
  | cons kv rest ih =>
      unfold loadRulesScan
      cases hu : unmarshal kv.2 with
      | none => simpa using ih m
      | some rule =>
          obtain ⟨e, he⟩ := adjustRule_error rule
          dsimp only
          rw [he]
          simpa using ih m

/-! ### Claim theorems for the labeler -/

/-- C2: for every `LabelRule` input, `adjustRule` returns a non-nil error
(the `KeyRange` case falls through to the unconditional invalid-rule-type
error instead of returning nil); consequently `SetLabelRule` always returns
an error and never inserts or updates any entry in the `labelRules` map, and
the scan phase of `loadRules` never retains any persisted rule. -/
theorem C2_adjustRule_always_errors :
    (∀ rule : LabelRule, ∃ e, adjustRule rule = Except.error e) ∧
    (∀ (storage : StorageModel) (m : RuleMap) (rule : LabelRule),
        (∃ e, (SetLabelRule storage m rule).1 = Except.error e) ∧
        (SetLabelRule storage m rule).2 = m) ∧
    (∀ (unmarshal : String → Option LabelRule) (kvs : List (String × String))
        (m : RuleMap), (loadRulesScan unmarshal kvs m).1 = m) := by
  refine ⟨adjustRule_error, ?_, loadRulesScan_map⟩
  intro storage m rule
  obtain ⟨e, he⟩ := setLabelRule_fails storage m rule
  rw [he]
  exact ⟨⟨e, rfl⟩, rfl⟩

/-- C9: when `SetLabelRule` returns an error, the `SetRule` handler writes an
error response (status 400 for rule-content or hex-decoding errors, 500
otherwise) and then, because the error branch does not return, also writes
the 200 success response to the same request; and on every invocation that
gets past JSON decoding the last response written is the 200 success
response, regardless of whether `SetLabelRule` succeeded. -/
theorem C9_setRule_writes_success_after_error :
    ∀ (storage : StorageModel) (m : RuleMap) (rule : LabelRule),
      (∃ e, (SetLabelRule storage m rule).1 = Except.error e ∧
          SetRuleHandler (some rule) storage m =
            ([Response.json (errStatus e) (errMessage e),
              Response.json 200 SetRuleSuccessMessage], m)) ∧
      (SetRuleHandler (some rule) storage m).1.getLast? =
        some (Response.json 200 SetRuleSuccessMessage) := by
  intro storage m rule
  obtain ⟨e, he⟩ := setLabelRule_fails storage m rule
  refine ⟨⟨e, ?_, ?_⟩, ?_⟩
  · rw [he]
  · unfold SetRuleHandler
    dsimp only
    rw [he]
  · unfold SetRuleHandler
    dsimp only
    rw [he]
    rfl

/-- C10: `DeleteLabelRule` is atomic with respect to storage failure: if
`storage.DeleteRegionRule(id)` returns an error, it returns that error with
the in-memory map unchanged; only when the storage deletion succeeds is the
entry for `id` removed (and every other entry left untouched), with a nil
return. -/
theorem C10_deleteLabelRule_atomic (storage : StorageModel) (m : RuleMap)
    (id : String) :
    ((∃ e, storage.deleteRegionRule id = some e) →
        ∃ e, DeleteLabelRule storage m id =
          (Except.error (LabelerError.storage e), m)) ∧
    (storage.deleteRegionRule id = none →
        (DeleteLabelRule storage m id).1 = Except.ok () ∧
        mapLookup (DeleteLabelRule storage m id).2 id = none ∧
        ∀ id2, id2 ≠ id →
          mapLookup (DeleteLabelRule storage m id).2 id2 = mapLookup m id2) := by
  constructor
  · rintro ⟨e, he⟩
    refine ⟨e, ?_⟩
    unfold DeleteLabelRule
    rw [he]
  · intro hn
    unfold DeleteLabelRule
    rw [hn]
    exact ⟨rfl, mapErase_lookup_self m id,
      fun id2 h => mapErase_lookup_other m id id2 h⟩

/-- Witness for C10 at a concrete storage, map and ID, covering both the
failing-storage and the succeeding-storage outcome. -/
theorem C10_deleteLabelRule_atomic_witness :
    ((∃ e, failStorage.deleteRegionRule "a" = some e) ∧
      ∃ e, DeleteLabelRule failStorage demoMap "a" =
        (Except.error (LabelerError.storage e), demoMap)) ∧
    (okStorage.deleteRegionRule "a" = none ∧
      (DeleteLabelRule okStorage demoMap "a").1 = Except.ok () ∧
      mapLookup (DeleteLabelRule okStorage demoMap "a").2 "a" = none ∧
      mapLookup (DeleteLabelRule okStorage demoMap "a").2 "b" = mapLookup demoMap "b") := by
  have h2 := (C10_deleteLabelRule_atomic okStorage demoMap "a").2 rfl
  exact ⟨⟨⟨"delete failed", rfl⟩,
      (C10_deleteLabelRule_atomic failStorage demoMap "a").1 ⟨"delete failed", rfl⟩⟩,
    rfl, h2.1, h2.2.1, h2.2.2 "b" (by decide)⟩

/-! ### Helper lemmas for the store limiter -/

theorem acquireN_succ (store : Nat) (k : OperationKind) (n : Nat)
    (s : StoreLimiter) :
    acquireN store k (n + 1) s =
      ((TryAcquire (acquireN store k n s).1 store k).2,
       (acquireN store k n s).2 ++ [(TryAcquire (acquireN store k n s).1 store k).1]) :=
  rfl

theorem tryAcquire_scene (s : StoreLimiter) (store : Nat) (k : OperationKind) :
    (TryAcquire s store k).2.scene = s.scene := by
  unfold TryAcquire
  split <;> rfl

theorem tryAcquire_level (s : StoreLimiter) (store : Nat) (k : OperationKind) :
    (TryAcquire s store k).2.level = s.level := by
  unfold TryAcquire
  split <;> rfl

theorem ceilingFor_eq (s t : StoreLimiter) (store : Nat) (k : OperationKind)
    (hs : t.scene = s.scene) (hl : t.level = s.level) :
    ceilingFor t store k = ceilingFor s store k := by
  unfold ceilingFor CurrentLevel
  rw [hs, hl]

theorem tryAcquire_grant (s : StoreLimiter) (store : Nat) (k : OperationKind)
    (h : s.inflight store k < (ceilingFor s store k : Int)) :
    (TryAcquire s store k).1 = true ∧
    (TryAcquire s store k).2.inflight store k = s.inflight store k + 1 := by
  unfold TryAcquire
  rw [if_pos h]
  exact ⟨rfl, by simp⟩

theorem tryAcquire_deny (s : StoreLimiter) (store : Nat) (k : OperationKind)
    (h : ¬s.inflight store k < (ceilingFor s store k : Int)) :
    (TryAcquire s store k).1 = false ∧ (TryAcquire s store k).2 = s := by
  unfold TryAcquire
  rw [if_neg h]
  exact ⟨rfl, rfl⟩

theorem release_inflight_self (s : StoreLimiter) (store : Nat)
    (k : OperationKind) :
    (Release s store k).inflight store k = max (s.inflight store k - 1) 0 := by
  unfold Release
  simp

theorem range_map_decide_lt (c : Nat) :
    (List.range c).map (fun i => decide (i < c)) = List.replicate c true := by
  have h : ((List.range c).map (fun i => decide (i < c))).length = c := by simp
  conv_rhs => rw [← h]
  apply List.eq_replicate_length.2
  intro b hb
  simp only [List.mem_map, List.mem_range] at hb
  obtain ⟨i, hi, rfl⟩ := hb
  exact decide_eq_true hi

/-- The exact behaviour of a run of `n` admission attempts from a clean
(store, kind) pair: the Scene registry and load levels are untouched, the
in-flight counter ends at `min n c`, and the grant decisions are true for
the first `c` attempts and false afterwards, where `c` is the (constant)
ceiling. -/
theorem acquireN_run (store : Nat) (k : OperationKind) (s : StoreLimiter)
    (h0 : s.inflight store k = 0) (n : Nat) :
    (acquireN store k n s).1.scene = s.scene ∧
    (acquireN store k n s).1.level = s.level ∧
    (acquireN store k n s).1.inflight store k =
      ((min n (ceilingFor s store k) : Nat) : Int) ∧
    (acquireN store k n s).2 =
      (List.range n).map (fun i => decide (i < ceilingFor s store k)) := by
  induction n with
  | zero =>
      refine ⟨rfl, rfl, ?_, rfl⟩
      simpa [acquireN] using h0
  | succ n ih =>
      obtain ⟨hs, hl, hi, hr⟩ := ih
      have hceil : ceilingFor (acquireN store k n s).1 store k =
          ceilingFor s store k :=
        ceilingFor_eq s _ store k hs hl
      rw [acquireN_succ]
      by_cases hlt : n < ceilingFor s store k
      · have hcond : (acquireN store k n s).1.inflight store k <
            (ceilingFor (acquireN store k n s).1 store k : Int) := by
          rw [hi, hceil]
          omega
        obtain ⟨hg, hinc⟩ := tryAcquire_grant _ store k hcond
        refine ⟨?_, ?_, ?_, ?_⟩
        · rw [tryAcquire_scene, hs]
        · rw [tryAcquire_level, hl]
        · rw [hinc, hi]
          omega
        · rw [hr, hg, List.range_succ, List.map_append]
          simp [hlt]
      · have hcond : ¬(acquireN store k n s).1.inflight store k <
            (ceilingFor (acquireN store k n s).1 store k : Int) := by
          rw [hi, hceil]
          omega
        obtain ⟨hg, hst⟩ := tryAcquire_deny _ store k hcond
        refine ⟨?_, ?_, ?_, ?_⟩
        · rw [hst, hs]
        · rw [hst, hl]
        · rw [hst, hi]
          omega
        · rw [hr, hg, List.range_succ, List.map_append]
          simp [hlt]

theorem applyOps_nonneg (store : Nat) (k : OperationKind) (ops : List LimOp) :
    ∀ s : StoreLimiter, 0 ≤ s.inflight store k →
      0 ≤ (applyOps store k ops s).inflight store k := by
  induction ops with
  | nil => exact fun s h => h
  | cons op rest ih =>
      intro s h
      cases op with
      | acq =>
          apply ih
          by_cases hc : s.inflight store k < (ceilingFor s store k : Int)
          · rw [(tryAcquire_grant s store k hc).2]
            omega
          · rw [(tryAcquire_deny s store k hc).2]
            exact h
      | rel =>
          apply ih
          rw [release_inflight_self]
          exact le_max_right _ _

theorem collectAll_total (classify : StoreStats → LoadLevel)
    (l : List StoreStats) (id : Nat) (h : ∀ st ∈ l, st.storeID = id) :
    ∀ s : StoreLimiter,
      (collectAll classify l s).total id = s.total id + l.length := by
  induction l with
  | nil => intro s; rfl
  | cons a rest ih =>
      intro s
      have ha : a.storeID = id := h a (List.mem_cons_self a rest)
      have hr : ∀ st ∈ rest, st.storeID = id :=
        fun st hs => h st (List.mem_cons_of_mem a hs)
      unfold collectAll
      rw [ih hr]
      simp [Collect, ha]
      omega

/-! ### Claim theorems for the store limiter -/

/-- C1: for a store whose (store, kind) counter starts at zero — with the
load level pinned, since admission calls never touch it — `TryAcquire`
grants exactly when the in-flight count is strictly below the ceiling `c`;
a run of `c` attempts all succeed, the `c+1`-th is denied, after one
`Release` the next attempt succeeds again (when `c` is positive), and the
in-flight count always stays within `[0, c]`. -/
theorem C1_ceiling_enforcement (s : StoreLimiter) (store : Nat)
    (k : OperationKind) (h0 : s.inflight store k = 0) :
    (∀ t : StoreLimiter,
        ((TryAcquire t store k).1 = true ↔
          t.inflight store k < (ceilingFor t store k : Int))) ∧
    (acquireN store k (ceilingFor s store k) s).2 =
      List.replicate (ceilingFor s store k) true ∧
    (acquireN store k (ceilingFor s store k + 1) s).2 =
      List.replicate (ceilingFor s store k) true ++ [false] ∧
    (0 < ceilingFor s store k →
      (TryAcquire
          (Release (acquireN store k (ceilingFor s store k + 1) s).1 store k)
          store k).1 = true) ∧
    (∀ n : Nat, 0 ≤ (acquireN store k n s).1.inflight store k ∧
        (acquireN store k n s).1.inflight store k ≤
          (ceilingFor s store k : Int)) := by
  refine ⟨?_, ?_, ?_, ?_, ?_⟩
  · intro t
    unfold TryAcquire
    by_cases h : t.inflight store k < (ceilingFor t store k : Int)
    · rw [if_pos h]
      simp [h]
    · rw [if_neg h]
      simp [h]
  · rw [(acquireN_run store k s h0 (ceilingFor s store k)).2.2.2,
      range_map_decide_lt]
  · rw [(acquireN_run store k s h0 (ceilingFor s store k + 1)).2.2.2,
      List.range_succ, List.map_append, range_map_decide_lt]
    simp
  · intro hc
    obtain ⟨hs, hl, hi, _⟩ := acquireN_run store k s h0 (ceilingFor s store k + 1)
    have hceil2 : ceilingFor
        (Release (acquireN store k (ceilingFor s store k + 1) s).1 store k)
        store k = ceilingFor s store k := by
      apply ceilingFor_eq
      · exact hs
      · exact hl
    have hrel : (Release (acquireN store k (ceilingFor s store k + 1) s).1
        store k).inflight store k =
        ((ceilingFor s store k : Int) - 1) := by
      rw [release_inflight_self, hi]
      omega
    have hcond : (Release (acquireN store k (ceilingFor s store k + 1) s).1
        store k).inflight store k <
        (ceilingFor (Release (acquireN store k (ceilingFor s store k + 1) s).1
          store k) store k : Int) := by
      rw [hrel, hceil2]
      omega
    exact (tryAcquire_grant _ store k hcond).1
  · intro n
    rw [(acquireN_run store k s h0 n).2.2.1]
    omega

/-- Witness for C1 on a fresh limiter: store 7 is unknown, so the High
ceiling of the default AddPeer Scene (12) applies; the run of 12, the
denial at 13, the post-release re-grant and the bounds are all instantiated
there. -/
theorem C1_ceiling_enforcement_witness :
    NewStoreLimiter.inflight 7 OperationKind.AddPeer = 0 ∧
    ((∀ t : StoreLimiter,
        ((TryAcquire t 7 OperationKind.AddPeer).1 = true ↔
          t.inflight 7 OperationKind.AddPeer <
            (ceilingFor t 7 OperationKind.AddPeer : Int))) ∧
     (acquireN 7 OperationKind.AddPeer 12 NewStoreLimiter).2 =
       List.replicate 12 true ∧
     (acquireN 7 OperationKind.AddPeer 13 NewStoreLimiter).2 =
       List.replicate 12 true ++ [false] ∧
     (0 < 12 →
       (TryAcquire
           (Release (acquireN 7 OperationKind.AddPeer 13 NewStoreLimiter).1 7
             OperationKind.AddPeer)
           7 OperationKind.AddPeer).1 = true) ∧
     (∀ n : Nat,
        0 ≤ (acquireN 7 OperationKind.AddPeer n NewStoreLimiter).1.inflight 7
            OperationKind.AddPeer ∧
        (acquireN 7 OperationKind.AddPeer n NewStoreLimiter).1.inflight 7
            OperationKind.AddPeer ≤ (12 : Int))) :=
  ⟨rfl, C1_ceiling_enforcement NewStoreLimiter 7 OperationKind.AddPeer rfl⟩

/-- C3: `ReplaceStoreLimitScene` installs the new Scene as a whole value for
the given kind and leaves the Scene of every other kind unchanged. -/
theorem C3_replace_scene_exact (s : StoreLimiter) (sc : Scene)
    (k k2 : OperationKind) (h : k2 ≠ k) :
    (ReplaceStoreLimitScene s sc k).scene k = sc ∧
    (ReplaceStoreLimitScene s sc k).scene k2 = s.scene k2 := by
  constructor
  · simp [ReplaceStoreLimitScene]
  · simp [ReplaceStoreLimitScene, h]

/-- Witness for C3: installing the test Scene for AddPeer on a fresh limiter
replaces the AddPeer Scene exactly and leaves RemovePeer untouched. -/
theorem C3_replace_scene_exact_witness :
    OperationKind.RemovePeer ≠ OperationKind.AddPeer ∧
    (ReplaceStoreLimitScene NewStoreLimiter demoScene
        OperationKind.AddPeer).scene OperationKind.AddPeer = demoScene ∧
    (ReplaceStoreLimitScene NewStoreLimiter demoScene
        OperationKind.AddPeer).scene OperationKind.RemovePeer =
      NewStoreLimiter.scene OperationKind.RemovePeer :=
  ⟨by decide, C3_replace_scene_exact NewStoreLimiter demoScene
    OperationKind.AddPeer OperationKind.RemovePeer (by decide)⟩

/-- C4: a freshly constructed limiter's active Scene for every known
operation kind equals `DefaultScene` of that kind. -/
theorem C4_default_seeding :
    ∀ k : OperationKind, NewStoreLimiter.scene k = DefaultScene k :=
  fun _ => rfl

/-- C5: after any stream of `Collect` calls whose samples all carry a given
store's ID, that store's sample counter on a fresh limiter equals the number
of calls; in particular a single `Collect` yields a counter of 1. -/
theorem C5_collect_counts (classify : StoreStats → LoadLevel)
    (l : List StoreStats) (id : Nat) (h : ∀ st ∈ l, st.storeID = id) :
    (collectAll classify l NewStoreLimiter).total id = l.length ∧
    (∀ stats : StoreStats,
        (Collect classify NewStoreLimiter stats).total stats.storeID = 1) := by
  constructor
  · simpa [NewStoreLimiter] using collectAll_total classify l id h NewStoreLimiter
  · intro stats
    simp [Collect, NewStoreLimiter]

/-- Witness for C5 with two heartbeats for store 3. -/
theorem C5_collect_counts_witness :
    (∀ st ∈ [demoStats, demoStats], st.storeID = 3) ∧
    (collectAll (fun _ => LoadLevel.Low) [demoStats, demoStats]
        NewStoreLimiter).total 3 = 2 ∧
    (∀ stats : StoreStats,
        (Collect (fun _ => LoadLevel.Low) NewStoreLimiter stats).total
          stats.storeID = 1) := by
  have h := C5_collect_counts (fun _ => LoadLevel.Low) [demoStats, demoStats] 3
    (by decide)
  exact ⟨by decide, h.1, h.2⟩

/-- C6: a store for which no sample has ever been collected reads as
LoadLevel High, never an error, and `TryAcquire` for such a store decides
against the High ceiling of the Scene; on a fresh limiter every store is in
that state. -/
theorem C6_unknown_store_high (s : StoreLimiter) (store : Nat)
    (k : OperationKind) (h : s.level store = none) :
    CurrentLevel s store = LoadLevel.High ∧
    ceilingFor s store k = (s.scene k).ceiling LoadLevel.High ∧
    (∀ st : Nat, NewStoreLimiter.level st = none) ∧
    (TryAcquire s store k).1 =
      decide (s.inflight store k <
        ((s.scene k).ceiling LoadLevel.High : Int)) := by
  have hc : CurrentLevel s store = LoadLevel.High := by
    unfold CurrentLevel
    rw [h]
    rfl
  have hceil : ceilingFor s store k = (s.scene k).ceiling LoadLevel.High := by
    unfold ceilingFor
    rw [hc]
  refine ⟨hc, hceil, fun _ => rfl, ?_⟩
  unfold TryAcquire
  rw [hceil]
  by_cases hh : s.inflight store k < ((s.scene k).ceiling LoadLevel.High : Int)
  · rw [if_pos hh]
    simp [hh]
  · rw [if_neg hh]
    simp [hh]

/-- Witness for C6 at store 5 of a fresh limiter. -/
theorem C6_unknown_store_high_witness :
    NewStoreLimiter.level 5 = none ∧
    (CurrentLevel NewStoreLimiter 5 = LoadLevel.High ∧
     ceilingFor NewStoreLimiter 5 OperationKind.RemovePeer =
       (NewStoreLimiter.scene OperationKind.RemovePeer).ceiling LoadLevel.High ∧
     (∀ st : Nat, NewStoreLimiter.level st = none) ∧
     (TryAcquire NewStoreLimiter 5 OperationKind.RemovePeer).1 =
       decide (NewStoreLimiter.inflight 5 OperationKind.RemovePeer <
         ((NewStoreLimiter.scene OperationKind.RemovePeer).ceiling
           LoadLevel.High : Int))) :=
  ⟨rfl, C6_unknown_store_high NewStoreLimiter 5 OperationKind.RemovePeer rfl⟩

/-- C7: under any sequence of `TryAcquire`/`Release` calls on a
(store, kind) pair — including sequences with more releases than prior
successful acquisitions — the in-flight counter never goes negative, and a
`Release` on a zero counter clamps it at zero. -/
theorem C7_no_negative_counters (store : Nat) (k : OperationKind)
    (ops : List LimOp) (s : StoreLimiter) (h : 0 ≤ s.inflight store k) :
    0 ≤ (applyOps store k ops s).inflight store k ∧
    (s.inflight store k = 0 → (Release s store k).inflight store k = 0) ∧
    (∀ ops2 : List LimOp,
        0 ≤ (applyOps store k ops2 NewStoreLimiter).inflight store k) := by
  refine ⟨applyOps_nonneg store k ops s h, ?_,
    fun ops2 => applyOps_nonneg store k ops2 NewStoreLimiter (le_refl 0)⟩
  intro h0
  rw [release_inflight_self, h0]
  decide

/-- Witness for C7: three releases and one acquisition against a fresh
limiter's store 2. -/
theorem C7_no_negative_counters_witness :
    (0 : Int) ≤ NewStoreLimiter.inflight 2 OperationKind.RemovePeer ∧
    (0 ≤ (applyOps 2 OperationKind.RemovePeer
        [LimOp.rel, LimOp.rel, LimOp.acq, LimOp.rel]
        NewStoreLimiter).inflight 2 OperationKind.RemovePeer ∧
     (NewStoreLimiter.inflight 2 OperationKind.RemovePeer = 0 →
       (Release NewStoreLimiter 2 OperationKind.RemovePeer).inflight 2
         OperationKind.RemovePeer = 0) ∧
     (∀ ops2 : List LimOp,
        0 ≤ (applyOps 2 OperationKind.RemovePeer ops2
            NewStoreLimiter).inflight 2 OperationKind.RemovePeer)) :=
  ⟨by decide, C7_no_negative_counters 2 OperationKind.RemovePeer
    [LimOp.rel, LimOp.rel, LimOp.acq, LimOp.rel] NewStoreLimiter (by decide)⟩

/-- C8: neither `ReplaceStoreLimitScene` nor `Collect` modifies any
in-flight counter, for every store and kind — in particular also when the
already-admitted count exceeds the new effective ceiling. -/
theorem C8_frame_inflight :
    ∀ (s : StoreLimiter) (sc : Scene) (k : OperationKind)
      (classify : StoreStats → LoadLevel) (stats : StoreStats)
      (store : Nat) (k2 : OperationKind),
      (ReplaceStoreLimitScene s sc k).inflight store k2 =
        s.inflight store k2 ∧
      (Collect classify s stats).inflight store k2 = s.inflight store k2 :=
  fun _ _ _ _ _ _ _ => ⟨rfl, rfl⟩

end PD
